import Mathlib

/-!
Shallow embedding of `pdc/apps/contact/serializers.py` (product-definition-center).

The module defines three custom pieces of serialization logic on top of Django
REST Framework:
* `LimitField`, an integer field rendering one sentinel integer as the string
  `"unlimited"`;
* `ContactField`, a polymorphic dict field dispatching between the `Person`
  and `Maillist` leaf models of the `Contact` base model, with get-or-create
  semantics and changeset logging on creation;
* `UniqueRoleContactValidator`, a cross-field uniqueness validator on the
  `RoleContact` join model.

The Django models (`pdc/apps/contact/models.py`) and the framework classes
(`serializers.IntegerField`, `serializers.DictField`, the ORM query set
operations) are not part of the source file; they are modelled here explicitly:
the ORM is a list-backed store, a query-set `get` is a filter expecting exactly
one match, `get_or_create` is a filter followed by an append, and errors are an
inductive type separating DRF validation errors from ORM field errors,
`DoesNotExist` and `MultipleObjectsReturned`.
-/

namespace PDCContact

/-- A JSON-ish wire value: the limit field sees either an integer or a string. -/
inductive WireVal where
  | int (n : Int)
  | str (s : String)
deriving DecidableEq

/-- The distinct kinds of errors the embedded code can raise.
`validation` is `rest_framework.serializers.ValidationError` (surfaced to the
API caller as a 400); the other constructors are ORM exceptions that the
serializer code does not catch: Django `FieldError` (unknown lookup keyword),
`DoesNotExist`, `MultipleObjectsReturned`, and Python `AttributeError`. -/
inductive AppError where
  | validation (msg : String)
  | fieldError (msg : String)
  | doesNotExist (msg : String)
  | multipleReturned (msg : String)
  | attrError (msg : String)
deriving DecidableEq

/-- Is the outcome a DRF validation error? -/
def isValidationError {α : Type} : Except AppError α → Bool
  | .error (.validation _) => true
  | _ => false

/-! ## Data model

Modelled from the spec: the models live in `pdc/apps/contact/models.py`, which
is not under `src/`. The spec says: "Contact: abstract polymorphic base;
concrete leaf kinds are Person (username, email) and Maillist (list name,
email). Invariant: every Contact row resolves to exactly one leaf kind."
`Leaf.unknownKind` stands for a hypothetical leaf class outside the two
dispatch tables, which the serializer code guards against explicitly. -/

/-- The concrete leaf record behind a `Contact` row (`as_leaf_class`). -/
inductive Leaf where
  | person (username email : String)
  | maillist (mail_name email : String)
  | unknownKind (descr : String)
deriving DecidableEq

/-- A `Contact` base row: primary key plus its resolved leaf record. -/
structure ContactRow where
  pk : Nat
  leaf : Leaf
deriving DecidableEq

/-- A `ContactRole` row: primary key, unique slug name, count limit. -/
structure ContactRoleRow where
  pk : Nat
  name : String
  count_limit : Int
deriving DecidableEq

/-- A `RoleContact` join row, carrying its two related objects as the ORM
presents them (`instance.contact_role`, `instance.contact`). -/
structure RoleContactRow where
  pk : Nat
  contact_role : ContactRoleRow
  contact : ContactRow
deriving DecidableEq

/-- The data store: one list per model, plus the next fresh primary key. -/
structure DB where
  contacts : List ContactRow
  contactRoles : List ContactRoleRow
  roleContacts : List RoleContactRow
  nextPk : Nat
deriving DecidableEq

/-- One entry of the external changeset log:
`request.changeset.add(model_name, id, old_value, new_value)`. -/
structure ChangeEntry where
  model_name : String
  entity_id : Nat
  old_state : String
  new_state : String
deriving DecidableEq

/-- Mutable state threaded through the serializer code: the data store and the
changeset log of the current request. -/
structure St where
  db : DB
  changes : List ChangeEntry
deriving DecidableEq

/-! ## LimitField

```python
class LimitField(serializers.IntegerField):
    UNLIMITED_STR = "unlimited"
    def __init__(self, unlimited_value, **kwargs):
        kwargs["min_value"] = 0
        ...
    def to_representation(self, obj):
        if obj == self.unlimited_value:
            return self.__class__.UNLIMITED_STR
        return super(LimitField, self).to_representation(obj)
    def to_internal_value(self, value):
        if value == self.__class__.UNLIMITED_STR:
            return self.unlimited_value
        return super(LimitField, self).to_internal_value(value)
```

`serializers.IntegerField` (DRF, external framework): `to_representation` is
`int(value)`; `to_internal_value` parses `int(data)` and raises a validation
error on unparsable input; `min_value=0` installs a `MinValueValidator(0)`
which runs in `run_validation` *after* `to_internal_value`. String parsing is
modelled by `pyParseInt` (optional sign followed by digits), matching Python
`int()` on the inputs of interest. -/

def UNLIMITED_STR : String := "unlimited"

/-- Accumulate a decimal digit string into a number; any non-digit fails. -/
def digitsToNatAux : List Char → Nat → Option Nat
  | [], acc => some acc
  | c :: cs, acc =>
      if c.isDigit then digitsToNatAux cs (acc * 10 + (c.toNat - Char.toNat (Char.ofNat 48)))
      else none

/-- Parse a non-empty decimal digit string. -/
def digitsToNat? : List Char → Option Nat
  | [] => none
  | cs => digitsToNatAux cs 0

/-- Python `int(str)` on the strings DRF passes through: an optional sign
followed by decimal digits. -/
def pyParseInt (s : String) : Option Int :=
  match s.data with
  | '-' :: rest => (digitsToNat? rest).map (fun n => -(n : Int))
  | '+' :: rest => (digitsToNat? rest).map (fun n => (n : Int))
  | cs => (digitsToNat? cs).map (fun n => (n : Int))

/-- DRF `IntegerField.to_internal_value`: accept an integer, or parse a
numeric string; otherwise raise a validation error. -/
def integerField_to_internal_value (v : WireVal) : Except AppError Int :=
  match v with
  | .int n => .ok n
  | .str s =>
      match pyParseInt s with
      | some n => .ok n
      | none => .error (.validation "A valid integer is required.")

/-- The `MinValueValidator(0)` installed by `LimitField.__init__` via
`kwargs[min_value] = 0`. -/
def minValueValidate (n : Int) : Except AppError Int :=
  if n < 0 then .error (.validation "Ensure this value is greater than or equal to 0.")
  else .ok n

/-- Method `LimitField.to_representation`. -/
def limitField_to_representation (unlimited_value : Int) (obj : Int) : WireVal :=
  if obj = unlimited_value then .str UNLIMITED_STR else .int obj

/-- Method `LimitField.to_internal_value`. -/
def limitField_to_internal_value (unlimited_value : Int) (v : WireVal) : Except AppError Int :=
  if v = .str UNLIMITED_STR then .ok unlimited_value
  else integerField_to_internal_value v

/-- The field's full inward pipeline (`Field.run_validation`):
`to_internal_value` followed by the installed validators (here
`MinValueValidator(0)`). -/
def limitField_run_validation (unlimited_value : Int) (v : WireVal) : Except AppError Int :=
  (limitField_to_internal_value unlimited_value v).bind minValueValidate

/-! ## ContactField

```python
class ContactField(serializers.DictField):
    child = serializers.CharField()
    field_to_class = \x7b"username": Person, "mail_name": Maillist\x7d
    class_to_serializer = \x7b"Person": PersonSerializer, "Maillist": MaillistSerializer\x7d
```

`to_internal_value` first runs `DictField.to_internal_value` (the payload must
be a mapping with string values); in the embedding the payload type
`List (String × String)` already enforces that shape, listing the dict entries.
The loop `for key, clazz in self.field_to_class.items()` iterates a Python
dict whose order is implementation-defined (this is Python 2 code); the
embedding fixes the insertion order `username, mail_name`. Every theorem below
is insensitive to that choice: the only payloads where the order matters are
those carrying both keys, and those fail with a field error in either order
because the other key is not a field of the chosen model. -/

/-- The two recognized leaf model classes. -/
inductive Kind where
  | person
  | maillist
deriving DecidableEq

/-- The model field names of each leaf class (besides the primary key). -/
def Kind.fields : Kind → List String
  | .person => ["username", "email"]
  | .maillist => ["mail_name", "email"]

/-- Django `ContentType.objects.get_for_model(contact).model`: the lowercased model
class name. -/
def Kind.modelName : Kind → String
  | .person => "person"
  | .maillist => "maillist"

/-- First value stored under key `k` in the payload. -/
def lookupStr (data : List (String × String)) (k : String) : Option String :=
  (data.find? (fun kv => kv.1 == k)).map (fun kv => kv.2)

/-- Test `key in v_data` for the payload dict. -/
def hasKey (data : List (String × String)) (k : String) : Bool :=
  data.any (fun kv => kv.1 == k)

/-- The leaf record built by `clazz.objects.create(**kwargs)` from the
payload's field values. -/
def Kind.mkLeaf : Kind → List (String × String) → Leaf
  | .person, data =>
      .person ((lookupStr data "username").getD "") ((lookupStr data "email").getD "")
  | .maillist, data =>
      .maillist ((lookupStr data "mail_name").getD "") ((lookupStr data "email").getD "")

/-- Does a stored leaf record match every keyword of an ORM lookup against the
model class `k`? (Used by `get_or_create`: the row must be of the queried
class and agree with each supplied field value.) -/
def leafMatches (k : Kind) (l : Leaf) (kwargs : List (String × String)) : Bool :=
  match k, l with
  | .person, .person u e =>
      kwargs.all (fun kv => (kv.1 == "username" && kv.2 == u) || (kv.1 == "email" && kv.2 == e))
  | .maillist, .maillist m e =>
      kwargs.all (fun kv => (kv.1 == "mail_name" && kv.2 == m) || (kv.1 == "email" && kv.2 == e))
  | _, _ => false

/-- Django `clazz.objects.get_or_create(**kwargs)`: a keyword that is not a
field of the model raises `FieldError`; otherwise `get` the unique matching
row (`MultipleObjectsReturned` if several), or create a fresh one with the
next primary key. Returns the row and the `created` flag. -/
def get_or_create (k : Kind) (kwargs : List (String × String)) (st : St) :
    Except AppError (ContactRow × Bool) × St :=
  if kwargs.all (fun kv => k.fields.contains kv.1) then
    match st.db.contacts.filter (fun c => leafMatches k c.leaf kwargs) with
    | [] =>
        let c : ContactRow := ⟨st.db.nextPk, k.mkLeaf kwargs⟩
        (.ok (c, true),
         { st with db := { st.db with contacts := st.db.contacts ++ [c],
                                      nextPk := st.db.nextPk + 1 } })
    | [c] => (.ok (c, false), st)
    | _ :: _ :: _ => (.error (.multipleReturned "get() returned more than one row"), st)
  else
    (.error (.fieldError "Cannot resolve keyword into field"), st)

/-- Modelled from the spec: the leaf models' `export()` method lives in
`pdc/apps/contact/models.py`, not under `src/`; the spec records only that the
changeset stores the "new state serialized as the leaf's exported form". We
render `json.dumps(contact.export())` as a JSON object of the leaf's non-key
fields. -/
def Leaf.exportDump : Leaf → String
  | .person u e => "\x7b\"username\": \"" ++ u ++ "\", \"email\": \"" ++ e ++ "\"\x7d"
  | .maillist m e => "\x7b\"mail_name\": \"" ++ m ++ "\", \"email\": \"" ++ e ++ "\"\x7d"
  | .unknownKind d => d

/-- Dispatch table `ContactField.field_to_class` (iteration order fixed as discussed above). -/
def field_to_class : List (String × Kind) := [("username", .person), ("mail_name", .maillist)]

/-- Message `"Unsupported Contact: %s" % value`. Python renders the `Contact` instance
through its model string conversion (defined in `models.py`, not under
`src/`); the embedding renders the primary key. -/
def unsupportedMsg (c : ContactRow) : String :=
  "Unsupported Contact: " ++ toString c.pk

/-- Method `ContactField.to_internal_value(data)`: pick the first recognized
distinguishing key present in the payload, `get_or_create` the corresponding
leaf model from all payload fields, log a changeset entry when a record was
created and a request context is available, and return the contact; with no
recognized key, raise a validation error. -/
def contactField_to_internal_value (hasRequest : Bool) (data : List (String × String))
    (st : St) : Except AppError ContactRow × St :=
  match field_to_class.find? (fun kc => hasKey data kc.1) with
  | some kc =>
      match get_or_create kc.2 data st with
      | (.ok (contact, created), st1) =>
          if created && hasRequest then
            (.ok contact,
             { st1 with changes := st1.changes ++
                 [⟨kc.2.modelName, contact.pk, "null", contact.leaf.exportDump⟩] })
          else
            (.ok contact, st1)
      | (.error e, st1) => (.error e, st1)
  | none => (.error (.validation "Could not determine type of contact."), st)

/-- Method `ContactField.to_representation(value)`: resolve the leaf class and
serialize it with the matching leaf serializer (`PersonSerializer` /
`MaillistSerializer`, fields `id`, `username`/`mail_name`, `email`); an
unrecognized leaf class raises a validation error. -/
def contactField_to_representation (c : ContactRow) : Except AppError (List (String × WireVal)) :=
  match c.leaf with
  | .person u e => .ok [("id", .int (Int.ofNat c.pk)), ("username", .str u), ("email", .str e)]
  | .maillist m e => .ok [("id", .int (Int.ofNat c.pk)), ("mail_name", .str m), ("email", .str e)]
  | .unknownKind _ => .error (.validation (unsupportedMsg c))

/-! ## UniqueRoleContactValidator -/

/-- Modelled from the spec: `RoleContact._meta.unique_together[0]` comes from
`models.py`, not under `src/`; the spec says the join of (ContactRole,
Contact) is "unique together" and the error message "lists the constrained
field names". -/
def unique_together : List String := ["contact_role", "contact"]

/-- Message `self.message.format(field_names=self.unique_together)`. -/
def uniqueSetMessage : String :=
  "The fields (" ++ String.intercalate ", " unique_together ++ ") must make a unique set."

/-- Method `UniqueRoleContactValidator.get_contact_role_pk`:
`ContactRole.objects.get(name=instance.name).pk`. -/
def get_contact_role_pk (db : DB) (inst : ContactRoleRow) : Except AppError Nat :=
  match db.contactRoles.filter (fun r => r.name == inst.name) with
  | [r] => .ok r.pk
  | [] => .error (.doesNotExist "ContactRole matching query does not exist.")
  | _ :: _ :: _ => .error (.multipleReturned "get() returned more than one ContactRole")

/-- Lookup `Contact.objects.get(**data)` where `data` maps each non-key leaf field,
prefixed by the leaf relation name, to the leaf instance's value: the matching
base rows are exactly those resolving to an equal leaf record. -/
def contactGetByLeaf (db : DB) (lf : Leaf) : Except AppError Nat :=
  match db.contacts.filter (fun c => c.leaf == lf) with
  | [c] => .ok c.pk
  | [] => .error (.doesNotExist "Contact matching query does not exist.")
  | _ :: _ :: _ => .error (.multipleReturned "get() returned more than one Contact")

/-- Method `UniqueRoleContactValidator.get_contact_pk`: resolve the leaf class of the
contact, build the prefixed field lookup, and fetch the owning contact row's
primary key; an unrecognized leaf class raises a validation error. -/
def get_contact_pk (db : DB) (inst : ContactRow) : Except AppError Nat :=
  match inst.leaf with
  | .person u e => contactGetByLeaf db (.person u e)
  | .maillist m e => contactGetByLeaf db (.maillist m e)
  | .unknownKind _ => .error (.validation (unsupportedMsg inst))

/-- The query set built by `UniqueRoleContactValidator.filter_queryset`: the
join rows carrying both resolved keys, minus the instance under update. -/
def dupQueryset (db : DB) (inst : Option RoleContactRow)
    (contact_role_id contact_id : Nat) : List RoleContactRow :=
  let queryset : List RoleContactRow := db.roleContacts.filter
    (fun rc => rc.contact_role.pk == contact_role_id && rc.contact.pk == contact_id)
  match inst with
  | some i => queryset.filter (fun rc => rc.pk != i.pk)
  | none => queryset

/-- Method `UniqueRoleContactValidator.filter_queryset`: filter the join rows by both
resolved keys, exclude the instance under update if any, and raise the
uniqueness validation error when any row remains (`queryset.exists()`). -/
def filter_queryset (db : DB) (inst : Option RoleContactRow)
    (contact_role_id contact_id : Nat) : Except AppError Unit :=
  if (dupQueryset db inst contact_role_id contact_id).isEmpty then .ok ()
  else .error (.validation uniqueSetMessage)

/-- The validated serializer input as the validator sees it: each field holds
the resolved related object when the key was supplied, `none` when it was
omitted (`value.get(...)`). -/
structure ValidatorInput where
  contact_role : Option ContactRoleRow
  contact : Option ContactRow
deriving DecidableEq

/-- Method `UniqueRoleContactValidator.__call__(value)` with `self.instance` as set
by `set_context` (`none` on create). Falls back to the existing instance's
values for omitted fields, resolves both primary keys, and checks uniqueness.
On create, an omitted field makes `value.get(...)` return `None` and the
subsequent attribute access raise `AttributeError`. -/
def uniqueRoleContactValidator_call (inst : Option RoleContactRow) (value : ValidatorInput)
    (st : St) : Except AppError Unit × St :=
  let crole_input : Option ContactRoleRow :=
    match inst with
    | some i => some (value.contact_role.getD i.contact_role)
    | none => value.contact_role
  let contact_input : Option ContactRow :=
    match inst with
    | some i => some (value.contact.getD i.contact)
    | none => value.contact
  match crole_input, contact_input with
  | some cr, some c =>
      ((do
        let rolePk ← get_contact_role_pk st.db cr
        let contactPk ← get_contact_pk st.db c
        filter_queryset st.db inst rolePk contactPk : Except AppError Unit), st)
  | _, _ => (.error (.attrError "NoneType object has no attribute"), st)

/-- The kind of a leaf record, when recognized. -/
def Leaf.kindOf : Leaf → Option Kind
  | .person _ _ => some .person
  | .maillist _ _ => some .maillist
  | .unknownKind _ => none

/-- An empty data store with no pending changeset. -/
def emptySt : St := ⟨⟨[], [], [], 0⟩, []⟩

/-! ## Helper lemmas -/

/-- In a payload with pairwise distinct keys, looking up the key of a stored
entry returns that entry's value. -/
theorem lookupStr_eq_of_mem (data : List (String × String))
    (hnodup : (data.map Prod.fst).Nodup) (kv : String × String) (hm : kv ∈ data) :
    lookupStr data kv.1 = some kv.2 := by
  induction data with
  | nil => cases hm
  | cons hd tl ih =>
      rcases List.mem_cons.mp hm with hEq | hTl
      · subst hEq
        simp [lookupStr, List.find?]
      · have hhd : hd.1 ≠ kv.1 := by
          intro h
          have : kv.1 ∈ tl.map Prod.fst := List.mem_map_of_mem Prod.fst hTl
          rw [List.map_cons] at hnodup
          exact (List.nodup_cons.mp hnodup).1 (h ▸ this)
        have htl : (tl.map Prod.fst).Nodup := by
          rw [List.map_cons] at hnodup
          exact (List.nodup_cons.mp hnodup).2
        have hrec := ih htl hTl
        unfold lookupStr at hrec ⊢
        rw [List.find?_cons_of_neg _ (by simp [hhd])]
        exact hrec

/-- A leaf freshly created from a well-formed payload matches that payload as
an ORM lookup. -/
theorem leafMatches_mkLeaf (k : Kind) (data : List (String × String))
    (hnodup : (data.map Prod.fst).Nodup)
    (hfields : data.all (fun kv => k.fields.contains kv.1) = true) :
    leafMatches k (k.mkLeaf data) data = true := by
  cases k
  case person =>
    simp only [Kind.mkLeaf, leafMatches, List.all_eq_true] at hfields ⊢
    intro kv hm
    have hlk := lookupStr_eq_of_mem data hnodup kv hm
    have hf : kv.1 = "username" ∨ kv.1 = "email" := by
      simpa [Kind.fields] using hfields kv hm
    rcases hf with h1 | h1 <;> rw [h1] at hlk <;> simp [h1, hlk]
  case maillist =>
    simp only [Kind.mkLeaf, leafMatches, List.all_eq_true] at hfields ⊢
    intro kv hm
    have hlk := lookupStr_eq_of_mem data hnodup kv hm
    have hf : kv.1 = "mail_name" ∨ kv.1 = "email" := by
      simpa [Kind.fields] using hfields kv hm
    rcases hf with h1 | h1 <;> rw [h1] at hlk <;> simp [h1, hlk]

/-- A leaf matching an ORM lookup against model class `k` is a leaf of class
`k`. -/
theorem leafMatches_kindOf (k : Kind) (l : Leaf) (kwargs : List (String × String))
    (h : leafMatches k l kwargs = true) : l.kindOf = some k := by
  cases k <;> cases l <;> simp_all [leafMatches, Leaf.kindOf]

/-- A contact returned successfully by `get_or_create` against model class `k`
is a leaf of class `k`. -/
theorem get_or_create_kindOf (k : Kind) (kwargs : List (String × String)) (st st1 : St)
    (c : ContactRow) (created : Bool)
    (h : get_or_create k kwargs st = (.ok (c, created), st1)) :
    c.leaf.kindOf = some k := by
  unfold get_or_create at h
  by_cases hf : kwargs.all (fun kv => k.fields.contains kv.1) = true
  · rw [if_pos hf] at h
    rcases hfil : st.db.contacts.filter (fun c => leafMatches k c.leaf kwargs) with
      _ | ⟨c1, _ | ⟨c2, t⟩⟩ <;> rw [hfil] at h
    · simp only [Prod.mk.injEq, Except.ok.injEq] at h
      obtain ⟨⟨hc, _⟩, _⟩ := h
      subst hc
      cases k <;> rfl
    · simp only [Prod.mk.injEq, Except.ok.injEq] at h
      obtain ⟨⟨hc, _⟩, _⟩ := h
      subst hc
      have hmem : c1 ∈ st.db.contacts.filter (fun c => leafMatches k c.leaf kwargs) := by
        rw [hfil]
        exact List.mem_singleton_self c1
      exact leafMatches_kindOf k c1.leaf kwargs (List.mem_filter.mp hmem).2
    · simp at h
  · rw [if_neg hf] at h
    simp at h

/-- Lookup `Contact.objects.get` never raises a validation error: its failures are
`DoesNotExist` or `MultipleObjectsReturned`. -/
theorem contactGetByLeaf_not_validation (db : DB) (lf : Leaf) (msg : String) :
    contactGetByLeaf db lf ≠ .error (.validation msg) := by
  unfold contactGetByLeaf
  rcases hfil : db.contacts.filter (fun c => c.leaf == lf) with _ | ⟨c1, _ | ⟨c2, t⟩⟩ <;>
    simp [hfil]

/-! ## Theorems -/

/-- C1: for every non-negative integer n different from the sentinel, the
limit field's outward conversion (`to_representation`) followed by its inward
conversion (`to_internal_value`) returns n; the sentinel converts outward to
the string "unlimited", and inward conversion of "unlimited" returns the
sentinel. -/
theorem limitField_roundtrip (unlimited_value n : Int) (_hnonneg : 0 ≤ n)
    (hne : n ≠ unlimited_value) :
    limitField_to_internal_value unlimited_value
        (limitField_to_representation unlimited_value n) = .ok n
    ∧ limitField_to_representation unlimited_value unlimited_value = .str UNLIMITED_STR
    ∧ limitField_to_internal_value unlimited_value (.str UNLIMITED_STR)
        = .ok unlimited_value := by
  refine ⟨?_, ?_, ?_⟩
  · simp [limitField_to_representation, hne, limitField_to_internal_value,
      integerField_to_internal_value]
  · simp [limitField_to_representation]
  · simp [limitField_to_internal_value]

/-- Witness for C1 at sentinel 0 and n = 3. -/
theorem limitField_roundtrip_witness :
    limitField_to_internal_value 0 (limitField_to_representation 0 3) = .ok 3
    ∧ limitField_to_representation 0 0 = .str UNLIMITED_STR
    ∧ limitField_to_internal_value 0 (.str UNLIMITED_STR) = .ok 0 :=
  limitField_roundtrip 0 3 (by decide) (by decide)

/-- C8: the limit field's inward pipeline rejects a negative integer (the
`min_value=0` validator) and a non-numeric string other than "unlimited" (the
integer parse), each with a validation error; every input other than the
sentinel string passes through the standard integer parsing and non-negativity
check. -/
theorem limitField_inward_errors (unlimited_value : Int) :
    (∀ n : Int, n < 0 →
      limitField_run_validation unlimited_value (.int n)
        = .error (.validation "Ensure this value is greater than or equal to 0."))
    ∧ (∀ s : String, s ≠ UNLIMITED_STR → pyParseInt s = none →
      limitField_run_validation unlimited_value (.str s)
        = .error (.validation "A valid integer is required."))
    ∧ (∀ v : WireVal, v ≠ .str UNLIMITED_STR →
      limitField_run_validation unlimited_value v
        = (integerField_to_internal_value v).bind minValueValidate) := by
  refine ⟨?_, ?_, ?_⟩
  · intro n hn
    simp [limitField_run_validation, limitField_to_internal_value,
      integerField_to_internal_value, minValueValidate, hn, Except.bind]
  · intro s hs hparse
    simp [limitField_run_validation, limitField_to_internal_value,
      integerField_to_internal_value, hs, hparse, Except.bind]
  · intro v hv
    simp [limitField_run_validation, limitField_to_internal_value, hv]

/-- C6: a contact payload containing neither "username" nor "mail_name" makes
the polymorphic field's inward conversion fail with a validation error,
leaving the data store and the changeset untouched. -/
theorem contactField_no_key_validation_error (hasRequest : Bool)
    (data : List (String × String)) (st : St)
    (hu : hasKey data "username" = false) (hm : hasKey data "mail_name" = false) :
    contactField_to_internal_value hasRequest data st
      = (.error (.validation "Could not determine type of contact."), st) := by
  unfold contactField_to_internal_value
  have hfind : field_to_class.find? (fun kc => hasKey data kc.1) = none := by
    simp [field_to_class, List.find?, hu, hm]
  rw [hfind]

/-- Witness for C6 at the payload carrying only an email. -/
theorem contactField_no_key_validation_error_witness :
    contactField_to_internal_value true [("email", "a@x.com")] emptySt
      = (.error (.validation "Could not determine type of contact."), emptySt) :=
  contactField_no_key_validation_error true [("email", "a@x.com")] emptySt
    (by decide) (by decide)

/-- C5: the leaf kind is decided by key presence: a successful inward
conversion of a payload containing "username" yields a Person leaf, and of a
payload containing "mail_name" yields a Maillist leaf, not a Person. -/
theorem contactField_leaf_kind_dispatch (hasRequest : Bool)
    (data : List (String × String)) (st : St) :
    (hasKey data "username" = true →
      ∀ c st1, contactField_to_internal_value hasRequest data st = (.ok c, st1) →
        c.leaf.kindOf = some Kind.person)
    ∧ (hasKey data "mail_name" = true →
      ∀ c st1, contactField_to_internal_value hasRequest data st = (.ok c, st1) →
        c.leaf.kindOf = some Kind.maillist) := by
  constructor
  · intro hu c st1 hconv
    unfold contactField_to_internal_value at hconv
    have hfind : field_to_class.find? (fun kc => hasKey data kc.1)
        = some ("username", Kind.person) := by
      simp [field_to_class, List.find?, hu]
    rw [hfind] at hconv
    dsimp only at hconv
    rcases hgoc : get_or_create Kind.person data st with ⟨res, st2⟩
    rw [hgoc] at hconv
    rcases res with e | ⟨c2, created⟩
    · simp at hconv
    · have hc : c2 = c := by
        rcases hcr : created && hasRequest <;> simp [hcr] at hconv <;> exact hconv.1
      exact hc ▸ get_or_create_kindOf Kind.person data st st2 c2 created hgoc
  · intro hm c st1 hconv
    unfold contactField_to_internal_value at hconv
    by_cases hu : hasKey data "username" = true
    · have hfind : field_to_class.find? (fun kc => hasKey data kc.1)
          = some ("username", Kind.person) := by
        simp [field_to_class, List.find?, hu]
      rw [hfind] at hconv
      dsimp only at hconv
      have hbad : ∃ kv ∈ data, kv.1 = "mail_name" := by
        simpa [hasKey, List.any_eq_true] using hm
      have hall : data.all (fun kv => Kind.person.fields.contains kv.1) = false := by
        rcases hall2 : data.all (fun kv => Kind.person.fields.contains kv.1) with _ | _
        · rfl
        · obtain ⟨kv, hkv, hk1⟩ := hbad
          have := List.all_eq_true.mp hall2 kv hkv
          rw [hk1] at this
          simp [Kind.fields] at this
      have hgoc : get_or_create Kind.person data st
          = (.error (.fieldError "Cannot resolve keyword into field"), st) := by
        unfold get_or_create
        rw [if_neg (by rw [hall]; exact Bool.false_ne_true)]
      rw [hgoc] at hconv
      simp at hconv
    · have hu2 : hasKey data "username" = false := by
        simpa using hu
      have hfind : field_to_class.find? (fun kc => hasKey data kc.1)
          = some ("mail_name", Kind.maillist) := by
        simp [field_to_class, List.find?, hu2, hm]
      rw [hfind] at hconv
      dsimp only at hconv
      rcases hgoc : get_or_create Kind.maillist data st with ⟨res, st2⟩
      rw [hgoc] at hconv
      rcases res with e | ⟨c2, created⟩
      · simp at hconv
      · have hc : c2 = c := by
          rcases hcr : created && hasRequest <;> simp [hcr] at hconv <;> exact hconv.1
        exact hc ▸ get_or_create_kindOf Kind.maillist data st st2 c2 created hgoc

/-- Witness for C5: converting the maillist payload of the spec example on an
empty store yields a maillist leaf. -/
theorem contactField_leaf_kind_dispatch_witness :
    (ContactRow.mk 0 (.maillist "list1" "l@x.com")).leaf.kindOf = some Kind.maillist :=
  (contactField_leaf_kind_dispatch false [("mail_name", "list1"), ("email", "l@x.com")]
      emptySt).2 (by decide)
    (ContactRow.mk 0 (.maillist "list1" "l@x.com"))
    ⟨⟨[⟨0, .maillist "list1" "l@x.com"⟩], [], [], 1⟩, []⟩ rfl

/-- C9: a stored contact resolving to an unrecognized leaf kind makes both the
outward serialization and the validator's contact primary-key resolution fail
with the "Unsupported Contact" validation error; the two recognized kinds
never take that error branch. -/
theorem contact_leaf_kind_guard (db : DB) (c : ContactRow) :
    ((∃ d, c.leaf = .unknownKind d) →
      contactField_to_representation c = .error (.validation (unsupportedMsg c))
      ∧ get_contact_pk db c = .error (.validation (unsupportedMsg c)))
    ∧ (c.leaf.kindOf.isSome = true →
      (∃ out, contactField_to_representation c = .ok out)
      ∧ ∀ msg, get_contact_pk db c ≠ .error (.validation msg)) := by
  rcases c with ⟨pk, lf⟩
  cases lf with
  | person u e =>
      constructor
      · rintro ⟨d, hd⟩
        simp at hd
      · intro _
        exact ⟨⟨_, rfl⟩, fun msg => contactGetByLeaf_not_validation db (.person u e) msg⟩
  | maillist m e =>
      constructor
      · rintro ⟨d, hd⟩
        simp at hd
      · intro _
        exact ⟨⟨_, rfl⟩, fun msg => contactGetByLeaf_not_validation db (.maillist m e) msg⟩
  | unknownKind d =>
      constructor
      · intro _
        exact ⟨rfl, rfl⟩
      · intro hs
        simp [Leaf.kindOf] at hs

/-- Witness for C9: an unknown-kind contact fails both paths; a person contact
serializes outward and resolves without the unsupported-contact error. -/
theorem contact_leaf_kind_guard_witness :
    (contactField_to_representation ⟨5, .unknownKind "x"⟩
        = .error (.validation (unsupportedMsg ⟨5, .unknownKind "x"⟩))
      ∧ get_contact_pk emptySt.db ⟨5, .unknownKind "x"⟩
        = .error (.validation (unsupportedMsg ⟨5, .unknownKind "x"⟩)))
    ∧ ((∃ out, contactField_to_representation ⟨1, .person "alice" "a@x.com"⟩ = .ok out)
      ∧ get_contact_pk emptySt.db ⟨1, .person "alice" "a@x.com"⟩
          ≠ .error (.validation "Unsupported Contact: 1")) :=
  ⟨(contact_leaf_kind_guard emptySt.db ⟨5, .unknownKind "x"⟩).1 ⟨"x", rfl⟩,
   ((contact_leaf_kind_guard emptySt.db ⟨1, .person "alice" "a@x.com"⟩).2 rfl).1,
   ((contact_leaf_kind_guard emptySt.db ⟨1, .person "alice" "a@x.com"⟩).2 rfl).2
     "Unsupported Contact: 1"⟩

/-- C7 counterexample: on the payload carrying both "username" and
"mail_name", inward conversion does not fail with a validation error: it picks
the Person branch and the ORM lookup fails with a `FieldError`. -/
theorem contactField_both_keys_counterexample :
    (contactField_to_internal_value true
        [("username", "alice"), ("mail_name", "l1"), ("email", "a@x.com")] emptySt).1
      = .error (.fieldError "Cannot resolve keyword into field")
    ∧ isValidationError
        ((contactField_to_internal_value true
          [("username", "alice"), ("mail_name", "l1"), ("email", "a@x.com")] emptySt).1)
      = false :=
  ⟨rfl, rfl⟩

/-- C7 (amended): a payload containing both "username" and "mail_name" makes
inward conversion fail — but with an ORM field-resolution error rather than a
validation error: the loop picks the first recognized key's model class and
passes every payload key to its `get_or_create`, which rejects the other
distinguishing key as an unknown field. No record is created. -/
theorem contactField_both_keys_field_error (hasRequest : Bool)
    (data : List (String × String)) (st : St)
    (hu : hasKey data "username" = true) (hm : hasKey data "mail_name" = true) :
    contactField_to_internal_value hasRequest data st
      = (.error (.fieldError "Cannot resolve keyword into field"), st) := by
  unfold contactField_to_internal_value
  have hfind : field_to_class.find? (fun kc => hasKey data kc.1)
      = some ("username", Kind.person) := by
    simp [field_to_class, List.find?, hu]
  rw [hfind]
  dsimp only
  have hbad : ∃ kv ∈ data, kv.1 = "mail_name" := by
    simpa [hasKey, List.any_eq_true] using hm
  have hall : data.all (fun kv => Kind.person.fields.contains kv.1) = false := by
    rcases hall2 : data.all (fun kv => Kind.person.fields.contains kv.1) with _ | _
    · rfl
    · obtain ⟨kv, hkv, hk1⟩ := hbad
      have := List.all_eq_true.mp hall2 kv hkv
      rw [hk1] at this
      simp [Kind.fields] at this
  have hgoc : get_or_create Kind.person data st
      = (.error (.fieldError "Cannot resolve keyword into field"), st) := by
    unfold get_or_create
    rw [if_neg (by rw [hall]; exact Bool.false_ne_true)]
  rw [hgoc]

/-- Witness for the amended C7 at the concrete ambiguous payload. -/
theorem contactField_both_keys_field_error_witness :
    contactField_to_internal_value true
        [("username", "alice"), ("mail_name", "l1"), ("email", "a@x.com")] emptySt
      = (.error (.fieldError "Cannot resolve keyword into field"), emptySt) :=
  contactField_both_keys_field_error true
    [("username", "alice"), ("mail_name", "l1"), ("email", "a@x.com")] emptySt
    (by decide) (by decide)

/-- C4: during a partial update the uniqueness validator substitutes the
existing join record's stored values for omitted fields; in particular,
updating only the role validates against the stored contact. -/
theorem uniqueValidator_omitted_fields_fallback (st : St) (inst : RoleContactRow)
    (value : ValidatorInput) :
    uniqueRoleContactValidator_call (some inst) value st
      = uniqueRoleContactValidator_call (some inst)
          ⟨some (value.contact_role.getD inst.contact_role),
           some (value.contact.getD inst.contact)⟩ st
    ∧ ∀ r : ContactRoleRow,
        uniqueRoleContactValidator_call (some inst) ⟨some r, none⟩ st
          = uniqueRoleContactValidator_call (some inst) ⟨some r, some inst.contact⟩ st := by
  constructor
  · rfl
  · intro r
    rfl

/-- C10: the uniqueness validator never touches the data store or the
changeset: whatever its verdict, the state it returns is the state it was
given. -/
theorem uniqueValidator_readonly (st : St) (inst : Option RoleContactRow)
    (value : ValidatorInput) :
    (uniqueRoleContactValidator_call inst value st).2 = st := by
  unfold uniqueRoleContactValidator_call
  rcases inst with _ | i <;> rcases value with ⟨_ | cr, _ | c⟩ <;> rfl

/-- Witness for C8 at sentinel 0, inputs -5, "abc" and 7. -/
theorem limitField_inward_errors_witness :
    limitField_run_validation 0 (.int (-5))
        = .error (.validation "Ensure this value is greater than or equal to 0.")
    ∧ limitField_run_validation 0 (.str "abc")
        = .error (.validation "A valid integer is required.")
    ∧ limitField_run_validation 0 (.int 7)
        = (integerField_to_internal_value (.int 7)).bind minValueValidate :=
  ⟨(limitField_inward_errors 0).1 (-5) (by decide),
   (limitField_inward_errors 0).2.1 "abc" (by decide) (by decide),
   (limitField_inward_errors 0).2.2 (.int 7) (by decide)⟩

/-- C3: once the role resolves by name to its primary key and the contact
resolves (through its leaf kind and field values) to its contact primary key,
the presence of another join row with both keys — the instance under update
excluded — makes the validator fail with the uniqueness validation error,
whose message is formatted from the constrained field names. -/
theorem uniqueValidator_duplicate_rejected (st : St) (inst : Option RoleContactRow)
    (role : ContactRoleRow) (c : ContactRow) (rolePk contactPk : Nat)
    (hrole : get_contact_role_pk st.db role = .ok rolePk)
    (hcontact : get_contact_pk st.db c = .ok contactPk)
    (hdup : dupQueryset st.db inst rolePk contactPk ≠ []) :
    (uniqueRoleContactValidator_call inst ⟨some role, some c⟩ st).1
      = .error (.validation uniqueSetMessage)
    ∧ uniqueSetMessage
      = "The fields (" ++ String.intercalate ", " unique_together
          ++ ") must make a unique set." := by
  refine ⟨?_, rfl⟩
  have hne : (dupQueryset st.db inst rolePk contactPk).isEmpty = false := by
    rcases hq : dupQueryset st.db inst rolePk contactPk with _ | ⟨a, t⟩
    · exact absurd hq hdup
    · rfl
  have hfq : filter_queryset st.db inst rolePk contactPk
      = .error (.validation uniqueSetMessage) := by
    unfold filter_queryset
    rw [hne]
    rfl
  unfold uniqueRoleContactValidator_call
  rcases inst with _ | i <;>
    simp [hrole, hcontact, hfq, bind, Except.instMonad, Except.bind]

/-- Witness for C3: with one stored join row binding role "qe" to the person
contact, validating the same pair on create is rejected. -/
theorem uniqueValidator_duplicate_rejected_witness :
    (uniqueRoleContactValidator_call none
        ⟨some ⟨1, "qe", 5⟩, some ⟨2, .person "alice" "a@x.com"⟩⟩
        ⟨⟨[⟨2, .person "alice" "a@x.com"⟩], [⟨1, "qe", 5⟩],
          [⟨3, ⟨1, "qe", 5⟩, ⟨2, .person "alice" "a@x.com"⟩⟩], 4⟩, []⟩).1
      = .error (.validation uniqueSetMessage)
    ∧ uniqueSetMessage
      = "The fields (" ++ String.intercalate ", " unique_together
          ++ ") must make a unique set." :=
  uniqueValidator_duplicate_rejected
    ⟨⟨[⟨2, .person "alice" "a@x.com"⟩], [⟨1, "qe", 5⟩],
      [⟨3, ⟨1, "qe", 5⟩, ⟨2, .person "alice" "a@x.com"⟩⟩], 4⟩, []⟩
    none ⟨1, "qe", 5⟩ ⟨2, .person "alice" "a@x.com"⟩ 1 2 rfl rfl (by decide)

/-- C2: a payload with a recognized distinguishing key whose fields match no
stored leaf record makes inward conversion create exactly one record and, when
a request context is present, log exactly one changeset entry (model name, new
id, prior state "null", new state in exported form); presented again against
the resulting store, the conversion returns the same record, creates nothing
and logs nothing. -/
theorem contactField_create_and_idempotent (hasRequest : Bool)
    (data : List (String × String)) (st : St) (kc : String × Kind)
    (hfind : field_to_class.find? (fun p => hasKey data p.1) = some kc)
    (hnodup : (data.map Prod.fst).Nodup)
    (hfields : data.all (fun kv => kc.2.fields.contains kv.1) = true)
    (hfresh : st.db.contacts.filter (fun c => leafMatches kc.2 c.leaf data) = []) :
    ∃ c0 stAfter,
      contactField_to_internal_value hasRequest data st = (.ok c0, stAfter)
      ∧ stAfter.db.contacts = st.db.contacts ++ [c0]
      ∧ stAfter.db.contactRoles = st.db.contactRoles
      ∧ stAfter.db.roleContacts = st.db.roleContacts
      ∧ stAfter.changes
          = (if hasRequest then
              st.changes ++ [⟨kc.2.modelName, c0.pk, "null", c0.leaf.exportDump⟩]
            else st.changes)
      ∧ contactField_to_internal_value hasRequest data stAfter = (.ok c0, stAfter) := by
  have hgoc1 : get_or_create kc.2 data st
      = (.ok (⟨st.db.nextPk, kc.2.mkLeaf data⟩, true),
         ⟨⟨st.db.contacts ++ [⟨st.db.nextPk, kc.2.mkLeaf data⟩], st.db.contactRoles,
           st.db.roleContacts, st.db.nextPk + 1⟩, st.changes⟩) := by
    unfold get_or_create
    rw [if_pos hfields, hfresh]
  refine ⟨⟨st.db.nextPk, kc.2.mkLeaf data⟩,
    ⟨⟨st.db.contacts ++ [⟨st.db.nextPk, kc.2.mkLeaf data⟩], st.db.contactRoles,
      st.db.roleContacts, st.db.nextPk + 1⟩,
     if hasRequest then
       st.changes ++ [⟨kc.2.modelName, st.db.nextPk, "null", (kc.2.mkLeaf data).exportDump⟩]
     else st.changes⟩,
    ?_, ?_, rfl, rfl, ?_, ?_⟩
  · unfold contactField_to_internal_value
    rw [hfind]
    dsimp only
    rw [hgoc1]
    cases hasRequest <;> simp
  · cases hasRequest <;> rfl
  · cases hasRequest <;> rfl
  · have hmatch : leafMatches kc.2 (kc.2.mkLeaf data) data = true :=
      leafMatches_mkLeaf kc.2 data hnodup hfields
    have hfil2 : (st.db.contacts ++ [(⟨st.db.nextPk, kc.2.mkLeaf data⟩ : ContactRow)]).filter
        (fun c => leafMatches kc.2 c.leaf data)
        = [⟨st.db.nextPk, kc.2.mkLeaf data⟩] := by
      rw [List.filter_append, hfresh]
      simp [hmatch]
    unfold contactField_to_internal_value
    rw [hfind]
    dsimp only
    unfold get_or_create
    rw [if_pos hfields]
    dsimp only
    rw [hfil2]
    cases hasRequest <;> rfl

/-- Witness for C2: Alice's payload on the empty store. -/
theorem contactField_create_and_idempotent_witness :
    ∃ c0 stAfter,
      contactField_to_internal_value true [("username", "alice"), ("email", "a@x.com")] emptySt
        = (.ok c0, stAfter)
      ∧ stAfter.db.contacts = emptySt.db.contacts ++ [c0]
      ∧ stAfter.db.contactRoles = emptySt.db.contactRoles
      ∧ stAfter.db.roleContacts = emptySt.db.roleContacts
      ∧ stAfter.changes
          = (if true then
              emptySt.changes
                ++ [⟨Kind.person.modelName, c0.pk, "null", c0.leaf.exportDump⟩]
            else emptySt.changes)
      ∧ contactField_to_internal_value true [("username", "alice"), ("email", "a@x.com")]
          stAfter = (.ok c0, stAfter) :=
  contactField_create_and_idempotent true [("username", "alice"), ("email", "a@x.com")]
    emptySt ("username", Kind.person) (by decide) (by decide) (by decide) rfl

end PDCContact
